import Mathlib

/-!
Shallow embedding of the Aiogram3AlchemySample repository.

The repository is a generic asynchronous data-access layer (`BaseDAO` in
`bot/dao/base.py`) over SQLAlchemy, plus a start-command handler
(`bot/users/router.py`).  We model the relational store as an in-memory
list of rows, a column value as a small inductive type, and each DAO
classmethod as a state-passing function `DB → Except DBError α × DB`.
A storage-layer fault (any `SQLAlchemyError` raised while executing or
committing) is injected through an explicit `fail : Bool` argument: when
it is set, the operation's transactional scope rolls back (the store is
returned unchanged) and the error is re-raised, exactly mirroring the
`except SQLAlchemyError: rollback; raise` blocks of the source.
-/

/-- A column value: integers (also used for identities and timestamps),
strings, or SQL NULL (a Python `None`). -/
inductive Val where
  | vint : Int → Val
  | vstr : String → Val
  | vnull : Val
deriving DecidableEq, Repr

/-- A persisted row.  Per `bot/database.py`, every entity carries a
server-assigned integer identity and creation/update timestamps
(`id`, `created_at`, `updated_at`); the remaining, entity-specific
columns live in an association list keyed by attribute name. -/
structure Row where
  id : Nat
  createdAt : Nat
  updatedAt : Nat
  attrs : List (String × Val)
deriving DecidableEq, Repr

/-- Set key `k` to `v` in an association list (overwrite if present,
append otherwise) — the semantics of assigning one attribute. -/
def setAttr : List (String × Val) → String → Val → List (String × Val)
  | [], k, v => [(k, v)]
  | p :: rest, k, v => if p.1 = k then (k, v) :: rest else p :: setAttr rest k v

/-- Read a timestamp/identity out of a `Val`, with a default for
non-integer contents. -/
def Val.toTime (v : Val) (dflt : Nat) : Nat :=
  match v with
  | .vint i => i.toNat
  | _ => dflt

/-- The value of column `k` on a row.  `id`, `created_at` and
`updated_at` are the base-model columns of `bot/database.py`; any other
attribute not present on the row is NULL (nullable column left unset). -/
def Row.col (r : Row) (k : String) : Val :=
  if k = "id" then .vint (Int.ofNat r.id)
  else if k = "created_at" then .vint (Int.ofNat r.createdAt)
  else if k = "updated_at" then .vint (Int.ofNat r.updatedAt)
  else
    match r.attrs.find? (fun p => p.1 = k) with
    | some p => p.2
    | none => .vnull

/-- Assign column `k` on a row (a `setattr` on the instance, or one
`SET k = v` of an UPDATE statement). -/
def Row.setCol (r : Row) (k : String) (v : Val) : Row :=
  if k = "id" then { r with id := v.toTime r.id }
  else if k = "created_at" then { r with createdAt := v.toTime r.createdAt }
  else if k = "updated_at" then { r with updatedAt := v.toTime r.updatedAt }
  else { r with attrs := setAttr r.attrs k v }

/-- The columns every entity inherits from the base model of
`bot/database.py`, whose values the server assigns by default. -/
def isServerCol (k : String) : Bool :=
  k == "id" || k == "created_at" || k == "updated_at"

/-- A `filter_by(**filter_by)` mapping: attribute-name/value pairs, all
required to hold by equality (`getattr(model, k) == v`). -/
def matchesFilter (filt : List (String × Val)) (r : Row) : Bool :=
  filt.all (fun p => r.col p.1 == p.2)

/-- The relational store: committed rows, the next auto-increment
identity, and the current server clock used for `func.now()` defaults. -/
structure DB where
  rows : List Row
  nextId : Nat
  clock : Nat
deriving DecidableEq, Repr

/-- Errors crossing the DAO boundary: `ValueError` raised by `delete`'s
empty-filter validation, `MultipleResultsFound` raised by
`scalar_one_or_none`, and any other storage-layer `SQLAlchemyError`. -/
inductive DBError where
  | validationError : DBError
  | multipleResultsFound : DBError
  | storageError : DBError
deriving DecidableEq, Repr

/-- `result.scalar_one_or_none()`: absence for zero rows, the row for
exactly one, `MultipleResultsFound` otherwise. -/
def scalarOneOrNone (l : List Row) : Except DBError (Option Row) :=
  match l with
  | [] => .ok none
  | [r] => .ok (some r)
  | _ :: _ :: _ => .error .multipleResultsFound

/-- `model(**values)`: a fresh instance from keyword arguments, with the
server defaults of `bot/database.py` (auto-increment identity,
`func.now()` timestamps) for the columns not supplied.  Keyword
arguments are a Python dict, so keys are unique by construction. -/
def DB.mkRow (db : DB) (values : List (String × Val)) : Row :=
  { id := match values.find? (fun p => p.1 = "id") with
          | some p => p.2.toTime db.nextId
          | none => db.nextId
    createdAt := match values.find? (fun p => p.1 = "created_at") with
          | some p => p.2.toTime db.clock
          | none => db.clock
    updatedAt := match values.find? (fun p => p.1 = "updated_at") with
          | some p => p.2.toTime db.clock
          | none => db.clock
    attrs := values.filter (fun p => !isServerCol p.1) }

/-- One UPDATE statement's effect on a matching row: every pair of
`values` is applied, and the `onupdate=func.now()` default of
`bot/database.py` refreshes `updated_at` whenever the statement does not
set it itself. -/
def applyUpdate (clock : Nat) (values : List (String × Val)) (r : Row) : Row :=
  let r1 := values.foldl (fun acc p => acc.setCol p.1 p.2) r
  if values.any (fun p => p.1 = "updated_at") then r1
  else { r1 with updatedAt := clock }

namespace BaseDAO

/-- `BaseDAO.find_one_or_none_by_id` (`bot/dao/base.py:13`): select by
primary key, `scalar_one_or_none`; read-only, the store is unchanged. -/
def find_one_or_none_by_id (db : DB) (fail : Bool) (data_id : Int) :
    Except DBError (Option Row) × DB :=
  if fail then (.error .storageError, db)
  else (scalarOneOrNone (db.rows.filter (fun r => r.col "id" == .vint data_id)), db)

/-- `BaseDAO.find_one_or_none` (`bot/dao/base.py:31`): select with
`filter_by(**filter_by)`, `scalar_one_or_none`; read-only. -/
def find_one_or_none (db : DB) (fail : Bool) (filter_by : List (String × Val)) :
    Except DBError (Option Row) × DB :=
  if fail then (.error .storageError, db)
  else (scalarOneOrNone (db.rows.filter (matchesFilter filter_by)), db)

/-- `BaseDAO.find_all` (`bot/dao/base.py:49`): all matching rows. -/
def find_all (db : DB) (fail : Bool) (filter_by : List (String × Val)) :
    Except DBError (List Row) × DB :=
  if fail then (.error .storageError, db)
  else (.ok (db.rows.filter (matchesFilter filter_by)), db)

/-- `BaseDAO.add` (`bot/dao/base.py:64`): construct `model(**values)`,
add it to the session and commit; on a storage error roll back (store
unchanged) and re-raise; on success return the persisted instance. -/
def add (db : DB) (fail : Bool) (values : List (String × Val)) :
    Except DBError Row × DB :=
  if fail then (.error .storageError, db)
  else
    let new_instance := db.mkRow values
    (.ok new_instance,
     { db with rows := db.rows ++ [new_instance], nextId := db.nextId + 1 })

/-- The instances `add_many` builds: `model(**values)` for each element,
identities assigned consecutively at flush time. -/
def mkRows (db : DB) (instances : List (List (String × Val))) : List Row :=
  match instances with
  | [] => []
  | values :: rest =>
      db.mkRow values :: mkRows { db with nextId := db.nextId + 1 } rest

/-- `BaseDAO.add_many` (`bot/dao/base.py:81`): construct every instance,
`add_all`, one commit; a storage error rolls the whole batch back and is
re-raised; on success all instances are persisted and returned. -/
def add_many (db : DB) (fail : Bool) (instances : List (List (String × Val))) :
    Except DBError (List Row) × DB :=
  if fail then (.error .storageError, db)
  else
    let new_instances := mkRows db instances
    (.ok new_instances,
     { db with rows := db.rows ++ new_instances,
               nextId := db.nextId + instances.length })

/-- `BaseDAO.update` (`bot/dao/base.py:98`): one UPDATE with a
conjunction of equality predicates from `filter_by` and SET clauses from
`values`; returns the rowcount; a storage error rolls back and
re-raises. -/
def update (db : DB) (fail : Bool) (filter_by : List (String × Val))
    (values : List (String × Val)) : Except DBError Nat × DB :=
  if fail then (.error .storageError, db)
  else
    (.ok (db.rows.filter (matchesFilter filter_by)).length,
     { db with rows := (db.rows.map
         (fun r => if matchesFilter filter_by r then applyUpdate db.clock values r else r)) })

/-- `BaseDAO.delete` (`bot/dao/base.py:120`): before any session is
opened, raise `ValueError` when `delete_all` is unset and the filter is
empty; otherwise one DELETE with `filter_by`, returning the rowcount; a
storage error rolls back and re-raises. -/
def delete (db : DB) (fail : Bool) (delete_all : Bool)
    (filter_by : List (String × Val)) : Except DBError Nat × DB :=
  if !delete_all && filter_by.isEmpty then (.error .validationError, db)
  else if fail then (.error .storageError, db)
  else
    (.ok (db.rows.filter (matchesFilter filter_by)).length,
     { db with rows := db.rows.filter (fun r => !matchesFilter filter_by r) })

/-- `BaseDAO.count` (`bot/dao/base.py:141`): `func.count(model.id)` over
the matching rows. -/
def count (db : DB) (fail : Bool) (filter_by : List (String × Val)) :
    Except DBError Nat × DB :=
  if fail then (.error .storageError, db)
  else (.ok (db.rows.filter (matchesFilter filter_by)).length, db)

/-- `BaseDAO.paginate` (`bot/dao/base.py:156`): the matching rows with
`offset((page - 1) * page_size)` and `limit(page_size)`. -/
def paginate (db : DB) (fail : Bool) (page : Nat) (page_size : Nat)
    (filter_by : List (String × Val)) : Except DBError (List Row) × DB :=
  if fail then (.error .storageError, db)
  else
    (.ok (((db.rows.filter (matchesFilter filter_by)).drop ((page - 1) * page_size)).take
      page_size), db)

/-- `BaseDAO.find_by_ids` (`bot/dao/base.py:174`): rows whose identity
is in the given list. -/
def find_by_ids (db : DB) (fail : Bool) (ids : List Int) :
    Except DBError (List Row) × DB :=
  if fail then (.error .storageError, db)
  else (.ok (db.rows.filter (fun r => ids.contains (Int.ofNat r.id))), db)

/-- The lookup filter `upsert` builds (`bot/dao/base.py:193`):
`{field: values[field] for field in unique_fields if field in values}` —
unique fields absent from `values` are dropped. -/
def upsertFilterDict (unique_fields : List String) (values : List (String × Val)) :
    List (String × Val) :=
  unique_fields.filterMap
    (fun field => (values.find? (fun p => p.1 = field)).map (fun p => (field, p.2)))

/-- `BaseDAO.upsert` (`bot/dao/base.py:189`).  The lookup delegates to
`find_one_or_none`, which opens and closes its OWN session
(`async_session_maker()` inside `find_one_or_none`), so the instance it
returns is detached from the session `upsert` itself opened.  In the
found branch the `setattr` loop therefore mutates only the detached
in-memory instance; the `session.commit()` that follows commits
`upsert`'s own session, which holds no pending change — the store is
left unchanged.  In the not-found branch the new instance is added to
`upsert`'s session and the commit persists it. -/
def upsert (db : DB) (fail : Bool) (unique_fields : List String)
    (values : List (String × Val)) : Except DBError Row × DB :=
  let filter_dict := upsertFilterDict unique_fields values
  match find_one_or_none db fail filter_dict with
  | (.error e, _) => (.error e, db)
  | (.ok (some existing), _) =>
      if fail then (.error .storageError, db)
      else
        (.ok (values.foldl (fun acc p => acc.setCol p.1 p.2) existing), db)
  | (.ok none, _) =>
      if fail then (.error .storageError, db)
      else
        let new_instance := db.mkRow values
        (.ok new_instance,
         { db with rows := db.rows ++ [new_instance], nextId := db.nextId + 1 })

/-- The per-record step of `bulk_update`'s loop: skip a record without
an `'id'` key; otherwise execute one UPDATE keyed on that identity with
the record's remaining pairs, accumulating the rowcount.  Statements in
the same transaction see the effects of the previous ones. -/
def bulkUpdateStep (clock : Nat) (acc : Nat × List Row) (record : List (String × Val)) :
    Nat × List Row :=
  match record.find? (fun p => p.1 = "id") with
  | none => acc
  | some idp =>
      let update_data := record.filter (fun p => p.1 ≠ "id")
      (acc.1 + (acc.2.filter (fun r => r.col "id" == idp.2)).length,
       acc.2.map (fun r =>
         if r.col "id" == idp.2 then applyUpdate clock update_data r else r))

/-- `BaseDAO.bulk_update` (`bot/dao/base.py:218`): one transaction over
the whole list; records missing `'id'` are skipped with `continue`; the
returned integer is the accumulated rowcount; any storage error rolls
the whole batch back and re-raises. -/
def bulk_update (db : DB) (fail : Bool) (records : List (List (String × Val))) :
    Except DBError Nat × DB :=
  if fail then (.error .storageError, db)
  else
    let result := records.foldl (bulkUpdateStep db.clock) (0, db.rows)
    (.ok result.1, { db with rows := result.2 })

end BaseDAO

/-! ## Start-command handler (`bot/users/router.py`)

`UserDAO` (from `bot/users/dao.py`, not under `src/`) is the generic
`BaseDAO` bound to the `User` model of `bot/users/models.py`
(`telegram_id`, optional `username` / `first_name` / `last_name` /
`referral_id` columns), so its operations are exactly the `BaseDAO`
operations above over the users table. -/

/-- The sender data the framework delivers with a start interaction
(`message.from_user`). -/
structure FromUser where
  id : Int
  username : Option String
  first_name : Option String
  last_name : Option String
  full_name : String
deriving DecidableEq, Repr

/-- An optional string column value (`None` becomes NULL). -/
def optStrVal : Option String → Val
  | some s => .vstr s
  | none => .vnull

/-- An optional integer column value (`None` becomes NULL). -/
def optIntVal : Option Int → Val
  | some i => .vint i
  | none => .vnull

/-- Modelled from the spec: `get_refer_id_or_none` lives in
`bot/users/utils.py`, which is not under `src/`.  Per §4.2 of the spec
it parses an optional referral identity from the interaction's argument
text; absence or malformed input yields no referrer. -/
def get_refer_id_or_none (command_args : Option String) (user_id : Int) : Option Int :=
  let _ := user_id
  command_args.bind (fun s => s.toInt?)

/-- The greeting reply of the found branch (`router.py:18`). -/
def greetingMsg (u : FromUser) : String :=
  "👋 Привет, " ++ u.full_name ++ "! Выберите необходимое действие"

/-- `ref_message` (`router.py:33`): Python truthiness, so a referral
identity that is absent — or zero — produces no mention. -/
def refMessage (ref_id : Option Int) : String :=
  match ref_id with
  | some r =>
      if r ≠ 0 then " Вы успешно закреплены за пользователем с ID " ++ toString r else ""
  | none => ""

/-- The registration confirmation `msg` (`router.py:34`). -/
def registrationMsg (ref_id : Option Int) : String :=
  "🎉 <b>Благодарим за регистрацию!" ++ refMessage ref_id ++ "</b>."

/-- The generic apology of the `except` branch (`router.py:40`). -/
def apologyMsg : String :=
  "Произошла ошибка при обработке вашего запроса. Пожалуйста, попробуйте снова позже."

/-- The outcome of one start interaction: the replies sent, the store
afterwards, and whether the error branch logged a diagnostic. -/
structure CmdStartResult where
  replies : List String
  db : DB
  errorLogged : Bool
deriving DecidableEq, Repr

/-- The `try` body of `cmd_start` (`router.py:13`–`router.py:36`):
look the sender up by `telegram_id`; if found, greet without mutating;
otherwise parse the referral identity, insert the new user row and reply
with the registration confirmation.  Any error escapes to the handler's
`except` clause. -/
def cmd_start_body (db : DB) (failFind : Bool) (failAdd : Bool) (message : FromUser)
    (command_args : Option String) : Except DBError (List String × DB) := do
  let user_id := message.id
  let user_info ← (BaseDAO.find_one_or_none db failFind [("telegram_id", .vint user_id)]).1
  match user_info with
  | some _ => pure ([greetingMsg message], db)
  | none =>
      let ref_id := get_refer_id_or_none command_args user_id
      let result := BaseDAO.add db failAdd
        [("telegram_id", .vint user_id),
         ("username", optStrVal message.username),
         ("first_name", optStrVal message.first_name),
         ("last_name", optStrVal message.last_name),
         ("referral_id", optIntVal ref_id)]
      let _ ← result.1
      pure ([registrationMsg ref_id], result.2)

/-- `cmd_start` (`router.py:12`): the `try`/`except Exception` wrapper —
an exception from lookup or insert is caught, a diagnostic is logged and
the generic apology is sent; nothing propagates to the transport
layer (the handler always returns normally). -/
def cmd_start (db : DB) (failFind : Bool) (failAdd : Bool) (message : FromUser)
    (command_args : Option String) : CmdStartResult :=
  match cmd_start_body db failFind failAdd message command_args with
  | .ok (replies, db1) => ⟨replies, db1, false⟩
  | .error _ => ⟨[apologyMsg], db, true⟩

/-! ## Helper lemmas about attribute assignment and row construction -/

theorem setAttr_find_self (attrs : List (String × Val)) (k : String) (v : Val) :
    (setAttr attrs k v).find? (fun p => p.1 = k) = some (k, v) := by
  induction attrs with
  | nil => simp [setAttr]
  | cons p rest ih =>
      by_cases h : p.1 = k
      · simp [setAttr, h]
      · simp [setAttr, h, ih]

theorem setAttr_find_ne (attrs : List (String × Val)) (j k : String) (v : Val)
    (h : k ≠ j) :
    (setAttr attrs j v).find? (fun p => p.1 = k) = attrs.find? (fun p => p.1 = k) := by
  induction attrs with
  | nil => simp [setAttr, Ne.symm h]
  | cons p rest ih =>
      by_cases hp : p.1 = j
      · simp [setAttr, hp, Ne.symm h]
      · simp only [setAttr, if_neg hp]
        by_cases hpk : p.1 = k
        · simp [hpk]
        · simp [hpk, ih]

theorem isServerCol_false_iff (k : String) :
    isServerCol k = false ↔ k ≠ "id" ∧ k ≠ "created_at" ∧ k ≠ "updated_at" := by
  simp [isServerCol, and_assoc]

theorem col_setCol_self (r : Row) (k : String) (v : Val)
    (h : isServerCol k = false) :
    (r.setCol k v).col k = v := by
  obtain ⟨h1, h2, h3⟩ := (isServerCol_false_iff k).mp h
  simp [Row.setCol, Row.col, h1, h2, h3, setAttr_find_self]

theorem col_setCol_ne (r : Row) (j k : String) (v : Val) (h : j ≠ k) :
    (r.setCol j v).col k = r.col k := by
  have hk : k ≠ j := Ne.symm h
  unfold Row.setCol
  split_ifs with h1 h2 h3
  · subst h1; simp [Row.col, hk]
  · subst h2; simp [Row.col, hk]
  · subst h3; simp [Row.col, hk]
  · simp [Row.col, setAttr_find_ne r.attrs j k v hk]

theorem foldl_setCol_not_mem (vs : List (String × Val)) (r : Row) (k : String)
    (h : ∀ p ∈ vs, p.1 ≠ k) :
    (vs.foldl (fun acc p => acc.setCol p.1 p.2) r).col k = r.col k := by
  induction vs generalizing r with
  | nil => rfl
  | cons p rest ih =>
      simp only [List.foldl_cons]
      rw [ih _ (fun q hq => h q (List.mem_cons_of_mem _ hq))]
      exact col_setCol_ne _ _ _ _ (h p (List.mem_cons_self _ _))

theorem foldl_setCol_mem (vs : List (String × Val)) (r : Row) (k : String) (v : Val)
    (hnd : (vs.map Prod.fst).Nodup) (hk : isServerCol k = false)
    (hmem : (k, v) ∈ vs) :
    (vs.foldl (fun acc p => acc.setCol p.1 p.2) r).col k = v := by
  induction vs generalizing r with
  | nil => cases hmem
  | cons p rest ih =>
      obtain ⟨pk, pv⟩ := p
      simp only [List.map_cons, List.nodup_cons] at hnd
      simp only [List.foldl_cons]
      rcases List.mem_cons.mp hmem with heq | hmem'
      · injection heq with hk1 hv1
        subst hk1; subst hv1
        have hout : ∀ q ∈ rest, q.1 ≠ k := by
          intro q hq hqk
          exact hnd.1 (hqk ▸ List.mem_map_of_mem Prod.fst hq)
        rw [foldl_setCol_not_mem rest _ k hout]
        exact col_setCol_self _ _ _ hk
      · exact ih _ hnd.2 hmem'

theorem find?_key_of_mem_nodup (values : List (String × Val)) (k : String) (v : Val)
    (hnd : (values.map Prod.fst).Nodup) (hmem : (k, v) ∈ values) :
    values.find? (fun p => p.1 = k) = some (k, v) := by
  induction values with
  | nil => cases hmem
  | cons p rest ih =>
      obtain ⟨pk, pv⟩ := p
      simp only [List.map_cons, List.nodup_cons] at hnd
      rcases List.mem_cons.mp hmem with heq | hmem'
      · injection heq with hk1 hv1
        subst hk1; subst hv1
        simp
      · have hpk : pk ≠ k := by
          intro hkk
          exact hnd.1 (hkk ▸ List.mem_map_of_mem Prod.fst hmem')
        simp [hpk, ih hnd.2 hmem']

theorem find?_filter_nonserver (values : List (String × Val)) (k : String)
    (hk : isServerCol k = false) :
    (values.filter (fun p => !isServerCol p.1)).find? (fun p => p.1 = k) =
      values.find? (fun p => p.1 = k) := by
  induction values with
  | nil => rfl
  | cons p rest ih =>
      by_cases hp : p.1 = k
      · have hps : isServerCol p.1 = false := by rw [hp]; exact hk
        simp [List.filter_cons, hps, hp, hk]
      · by_cases hps : isServerCol p.1 = true
        · simp [List.filter_cons, hps, hp, ih]
        · simp only [Bool.not_eq_true] at hps
          simp [List.filter_cons, hps, hp, ih]

theorem mkRow_col_of_mem (db : DB) (values : List (String × Val)) (k : String) (v : Val)
    (hnd : (values.map Prod.fst).Nodup) (hk : isServerCol k = false)
    (hmem : (k, v) ∈ values) :
    (db.mkRow values).col k = v := by
  obtain ⟨h1, h2, h3⟩ := (isServerCol_false_iff k).mp hk
  simp [DB.mkRow, Row.col, h1, h2, h3, find?_filter_nonserver values k hk,
        find?_key_of_mem_nodup values k v hnd hmem]

theorem mkRow_id (db : DB) (values : List (String × Val))
    (h : ∀ p ∈ values, p.1 ≠ "id") :
    (db.mkRow values).id = db.nextId := by
  have : values.find? (fun p => p.1 = "id") = none :=
    List.find?_eq_none.mpr (by simpa using h)
  simp [DB.mkRow, this]

theorem mkRow_createdAt (db : DB) (values : List (String × Val))
    (h : ∀ p ∈ values, p.1 ≠ "created_at") :
    (db.mkRow values).createdAt = db.clock := by
  have : values.find? (fun p => p.1 = "created_at") = none :=
    List.find?_eq_none.mpr (by simpa using h)
  simp [DB.mkRow, this]

theorem mkRow_updatedAt (db : DB) (values : List (String × Val))
    (h : ∀ p ∈ values, p.1 ≠ "updated_at") :
    (db.mkRow values).updatedAt = db.clock := by
  have : values.find? (fun p => p.1 = "updated_at") = none :=
    List.find?_eq_none.mpr (by simpa using h)
  simp [DB.mkRow, this]

theorem mkRows_length (db : DB) (instances : List (List (String × Val))) :
    (BaseDAO.mkRows db instances).length = instances.length := by
  induction instances generalizing db with
  | nil => rfl
  | cons v rest ih => simp [BaseDAO.mkRows, ih]

/-! ## Claim theorems -/

/-- C1: for every call to `delete` with an empty filter mapping and
`delete_all` left unset, `delete` raises the validation error before any
storage interaction occurs (for every injected storage fault) and no
entity is deleted; conversely, with a non-empty filter or `delete_all`
explicitly True, no validation error is raised. -/
theorem C1_delete_empty_filter_validation (db : DB) (fail : Bool) (delete_all : Bool)
    (filter_by : List (String × Val)) :
    (filter_by = [] ∧ delete_all = false →
      BaseDAO.delete db fail delete_all filter_by = (.error .validationError, db)) ∧
    (filter_by ≠ [] ∨ delete_all = true →
      (BaseDAO.delete db fail delete_all filter_by).1 ≠ .error .validationError) := by
  constructor
  · rintro ⟨h1, h2⟩
    subst h1; subst h2
    rfl
  · intro h
    have hcond : (!delete_all && filter_by.isEmpty) = false := by
      rcases h with h | h
      · simp [List.isEmpty_iff, h]
      · simp [h]
    unfold BaseDAO.delete
    rw [hcond]
    cases fail <;> simp

/-- Witness for C1 at a one-row store: the empty-filter call is rejected
with the store intact, the filtered call is not. -/
theorem C1_delete_empty_filter_validation_witness :
    (([] : List (String × Val)) = [] ∧ false = false →
      BaseDAO.delete ⟨[⟨1, 0, 0, []⟩], 2, 0⟩ false false [] =
        (.error .validationError, ⟨[⟨1, 0, 0, []⟩], 2, 0⟩)) ∧
    BaseDAO.delete ⟨[⟨1, 0, 0, []⟩], 2, 0⟩ false false [] =
      (.error .validationError, ⟨[⟨1, 0, 0, []⟩], 2, 0⟩) ∧
    (BaseDAO.delete ⟨[⟨1, 0, 0, []⟩], 2, 0⟩ false false [("username", .vstr "a")]).1 ≠
      .error .validationError := by
  refine ⟨(C1_delete_empty_filter_validation _ false false []).1, ?_, ?_⟩
  · exact (C1_delete_empty_filter_validation _ false false []).1 ⟨rfl, rfl⟩
  · exact (C1_delete_empty_filter_validation _ false false _).2 (Or.inl (by decide))

/-- C4: for every filter matching zero stored entities, `update` and
(with a non-empty filter) `delete` both return 0, raise no error, and
leave every stored entity unchanged. -/
theorem C4_zero_match_update_delete_noop (db : DB)
    (filter_by values : List (String × Val))
    (hzero : db.rows.filter (matchesFilter filter_by) = [])
    (hne : filter_by ≠ []) :
    BaseDAO.update db false filter_by values = (.ok 0, db) ∧
    BaseDAO.delete db false false filter_by = (.ok 0, db) := by
  have hnomatch : ∀ r ∈ db.rows, matchesFilter filter_by r = false := by
    intro r hr
    by_contra hb
    have hmem : r ∈ db.rows.filter (matchesFilter filter_by) :=
      List.mem_filter.mpr ⟨hr, by simpa using hb⟩
    rw [hzero] at hmem
    cases hmem
  constructor
  · unfold BaseDAO.update
    have hmap : db.rows.map
        (fun r => if matchesFilter filter_by r then applyUpdate db.clock values r else r) =
        db.rows := by
      conv_rhs => rw [← List.map_id db.rows]
      exact List.map_congr_left (fun r hr => by simp [hnomatch r hr])
    simp [hzero, hmap]
  · have hcond : (!false && filter_by.isEmpty) = false := by
      simp [List.isEmpty_iff, hne]
    unfold BaseDAO.delete
    rw [hcond]
    have hkeep : db.rows.filter (fun r => !matchesFilter filter_by r) = db.rows :=
      List.filter_eq_self.mpr (fun r hr => by simp [hnomatch r hr])
    simp [hzero, hkeep]

/-- Witness for C4: a store with one user row and a filter that matches
nothing. -/
theorem C4_zero_match_update_delete_noop_witness :
    BaseDAO.update ⟨[⟨1, 0, 0, [("username", .vstr "a")]⟩], 2, 9⟩ false
        [("username", .vstr "zzz")] [("username", .vstr "b")] =
      (.ok 0, ⟨[⟨1, 0, 0, [("username", .vstr "a")]⟩], 2, 9⟩) ∧
    BaseDAO.delete ⟨[⟨1, 0, 0, [("username", .vstr "a")]⟩], 2, 9⟩ false false
        [("username", .vstr "zzz")] =
      (.ok 0, ⟨[⟨1, 0, 0, [("username", .vstr "a")]⟩], 2, 9⟩) :=
  C4_zero_match_update_delete_noop _ _ _ (by decide) (by decide)

/-- C6: `add_many` is all-or-nothing — a storage failure while
persisting the batch rolls every insertion back (the committed store is
returned unchanged) and the error is re-raised; on success every element
is persisted and the new instances are returned. -/
theorem C6_add_many_all_or_nothing (db : DB) (instances : List (List (String × Val))) :
    BaseDAO.add_many db true instances = (.error .storageError, db) ∧
    ∃ rs, BaseDAO.add_many db false instances =
        (.ok rs, { db with rows := db.rows ++ rs, nextId := db.nextId + instances.length }) ∧
      rs.length = instances.length :=
  ⟨rfl, BaseDAO.mkRows db instances, rfl, mkRows_length db instances⟩

/-- C3: a successful `add` returns an instance carrying the
server-assigned identity and timestamps, and a subsequent
`find_one_or_none_by_id` with that identity returns an entity agreeing
with every caller-supplied attribute.  (The spec's base-entity invariant
says callers never set `id`/`created_at`/`updated_at`; uniqueness of
stored identities is the auto-increment invariant.) -/
theorem C3_add_find_roundtrip (db : DB) (values : List (String × Val))
    (hfresh : ∀ r ∈ db.rows, r.id ≠ db.nextId)
    (hnd : (values.map Prod.fst).Nodup)
    (hres : ∀ p ∈ values, isServerCol p.1 = false) :
    ∃ row db1,
      BaseDAO.add db false values = (.ok row, db1) ∧
      row.id = db.nextId ∧ row.createdAt = db.clock ∧ row.updatedAt = db.clock ∧
      BaseDAO.find_one_or_none_by_id db1 false (Int.ofNat row.id) =
        (.ok (some row), db1) ∧
      ∀ p ∈ values, row.col p.1 = p.2 := by
  have hid : ∀ p ∈ values, p.1 ≠ "id" := fun p hp =>
    ((isServerCol_false_iff p.1).mp (hres p hp)).1
  have hca : ∀ p ∈ values, p.1 ≠ "created_at" := fun p hp =>
    ((isServerCol_false_iff p.1).mp (hres p hp)).2.1
  have hua : ∀ p ∈ values, p.1 ≠ "updated_at" := fun p hp =>
    ((isServerCol_false_iff p.1).mp (hres p hp)).2.2
  have hrowid : (db.mkRow values).id = db.nextId := mkRow_id db values hid
  have hcolid : ∀ r : Row, r.col "id" = Val.vint (Int.ofNat r.id) := fun r => by
    simp [Row.col]
  have hfilter : (db.rows ++ [db.mkRow values]).filter
      (fun r => r.col "id" == Val.vint (Int.ofNat (db.mkRow values).id)) =
      [db.mkRow values] := by
    rw [List.filter_append]
    have h1 : db.rows.filter
        (fun r => r.col "id" == Val.vint (Int.ofNat (db.mkRow values).id)) = [] := by
      rw [List.filter_eq_nil_iff]
      intro r hr hbeq
      have heq : r.col "id" = Val.vint (Int.ofNat (db.mkRow values).id) := by
        simpa using hbeq
      rw [hcolid r, hrowid] at heq
      exact hfresh r hr (Int.ofNat.inj (Val.vint.inj heq))
    have h2 : ([db.mkRow values]).filter
        (fun r => r.col "id" == Val.vint (Int.ofNat (db.mkRow values).id)) =
        [db.mkRow values] := by
      simp [hcolid]
    rw [h1, h2]
    rfl
  refine ⟨db.mkRow values,
    { db with rows := db.rows ++ [db.mkRow values], nextId := db.nextId + 1 },
    rfl, hrowid, mkRow_createdAt db values hca, mkRow_updatedAt db values hua, ?_, ?_⟩
  · unfold BaseDAO.find_one_or_none_by_id
    simp only [Bool.false_eq_true, if_false]
    rw [hfilter]
    rfl
  · intro p hp
    exact mkRow_col_of_mem db values p.1 p.2 hnd (hres p hp) (by simpa using hp)

/-- Witness for C3: adding a user row to an empty store and reading it
back by the returned identity. -/
theorem C3_add_find_roundtrip_witness :
    ∃ row db1,
      BaseDAO.add ⟨[], 0, 5⟩ false
          [("telegram_id", .vint 42), ("username", .vstr "john")] = (.ok row, db1) ∧
      row.id = 0 ∧ row.createdAt = 5 ∧ row.updatedAt = 5 ∧
      BaseDAO.find_one_or_none_by_id db1 false (Int.ofNat row.id) =
        (.ok (some row), db1) ∧
      ∀ p ∈ [(("telegram_id" : String), Val.vint 42), ("username", .vstr "john")],
        row.col p.1 = p.2 :=
  C3_add_find_roundtrip ⟨[], 0, 5⟩ _ (by decide) (by decide) (by decide)

/-- C5: for positive `page`/`page_size`, `paginate` returns the slice of
matching entities at offset `(page - 1) * page_size` of length at most
`page_size`; over 25 matching entities with page size 10, page 2 has
exactly 10 entities, disjoint from page 1 (10) and page 3 (5). -/
theorem C5_paginate_slices (db : DB) (filter_by : List (String × Val))
    (page page_size : Nat) (hpage : 1 ≤ page) (hsize : 1 ≤ page_size) :
    (∃ res, BaseDAO.paginate db false page page_size filter_by = (.ok res, db) ∧
      res = ((db.rows.filter (matchesFilter filter_by)).drop
        ((page - 1) * page_size)).take page_size ∧
      res.length ≤ page_size) ∧
    ((db.rows.map Row.id).Nodup →
      (db.rows.filter (matchesFilter filter_by)).length = 25 →
      ∃ p1 p2 p3,
        BaseDAO.paginate db false 1 10 filter_by = (.ok p1, db) ∧
        BaseDAO.paginate db false 2 10 filter_by = (.ok p2, db) ∧
        BaseDAO.paginate db false 3 10 filter_by = (.ok p3, db) ∧
        p1.length = 10 ∧ p2.length = 10 ∧ p3.length = 5 ∧
        ∀ r ∈ p2, r ∉ p1 ∧ r ∉ p3) := by
  constructor
  · exact ⟨_, rfl, rfl, List.length_take_le _ _⟩
  · intro hnd hlen
    set l := db.rows.filter (matchesFilter filter_by) with hl
    have hlnd : l.Nodup := (List.Nodup.of_map Row.id hnd).filter _
    refine ⟨l.take 10, (l.drop 10).take 10, (l.drop 20).take 10, ?_, ?_, ?_, ?_, ?_, ?_, ?_⟩
    · unfold BaseDAO.paginate
      norm_num
    · unfold BaseDAO.paginate
      norm_num
    · unfold BaseDAO.paginate
      norm_num
    · simp [List.length_take, hlen]
    · simp [List.length_take, List.length_drop, hlen]
    · simp [List.length_take, List.length_drop, hlen]
    · have hsplit : l = l.take 10 ++ ((l.drop 10).take 10 ++ l.drop 20) := by
        conv_lhs => rw [← List.take_append_drop 10 l]
        congr 1
        conv_lhs => rw [← List.take_append_drop 10 (l.drop 10)]
        congr 1
        rw [List.drop_drop]
      have hnodup2 : (l.take 10 ++ ((l.drop 10).take 10 ++ l.drop 20)).Nodup :=
        hsplit ▸ hlnd
      obtain ⟨h1, h23, hdisj1⟩ := List.nodup_append.mp hnodup2
      obtain ⟨h2, h3, hdisj2⟩ := List.nodup_append.mp h23
      intro r hr
      constructor
      · intro hr1
        exact hdisj1 hr1 (List.mem_append_left _ hr)
      · intro hr3
        exact hdisj2 hr (List.take_subset _ _ hr3)

/-- A 25-row users table with distinct identities, for the C5
witness. -/
def sampleDb : DB :=
  ⟨(List.range 25).map (fun i => ⟨i, 0, 0, []⟩), 25, 0⟩

/-- Witness for C5: pages 1, 2 and 3 of the 25-row store under the
empty (match-everything) filter. -/
theorem C5_paginate_slices_witness :
    (∃ res, BaseDAO.paginate sampleDb false 2 10 [] = (.ok res, sampleDb) ∧
      res = ((sampleDb.rows.filter (matchesFilter [])).drop ((2 - 1) * 10)).take 10 ∧
      res.length ≤ 10) ∧
    (∃ p1 p2 p3,
        BaseDAO.paginate sampleDb false 1 10 [] = (.ok p1, sampleDb) ∧
        BaseDAO.paginate sampleDb false 2 10 [] = (.ok p2, sampleDb) ∧
        BaseDAO.paginate sampleDb false 3 10 [] = (.ok p3, sampleDb) ∧
        p1.length = 10 ∧ p2.length = 10 ∧ p3.length = 5 ∧
        ∀ r ∈ p2, r ∉ p1 ∧ r ∉ p3) :=
  ⟨(C5_paginate_slices sampleDb [] 2 10 (by decide) (by decide)).1,
   (C5_paginate_slices sampleDb [] 2 10 (by decide) (by decide)).2
     (by decide) (by decide)⟩

/-- C7: a `bulk_update` record lacking an identity field is silently
skipped — removing it from the batch changes nothing (it causes no
update, no error, and contributes 0 to the result); a storage failure
rolls the whole batch back as one unit, and a fault-free run returns an
accumulated rowcount. -/
theorem C7_bulk_update_skip_and_atomic (db : DB) (fail : Bool)
    (pre post : List (List (String × Val))) (record : List (String × Val))
    (hno : ∀ p ∈ record, p.1 ≠ "id") :
    BaseDAO.bulk_update db fail (pre ++ record :: post) =
      BaseDAO.bulk_update db fail (pre ++ post) ∧
    BaseDAO.bulk_update db true (pre ++ record :: post) = (.error .storageError, db) ∧
    ∃ n db1, BaseDAO.bulk_update db false (pre ++ record :: post) = (.ok n, db1) := by
  have hstep : ∀ acc, BaseDAO.bulkUpdateStep db.clock acc record = acc := by
    intro acc
    unfold BaseDAO.bulkUpdateStep
    rw [List.find?_eq_none.mpr (fun p hp => by simpa using hno p hp)]
  refine ⟨?_, rfl, ⟨_, _, rfl⟩⟩
  cases fail
  · unfold BaseDAO.bulk_update
    rw [if_neg Bool.false_ne_true, if_neg Bool.false_ne_true,
        List.foldl_append, List.foldl_cons, hstep, ← List.foldl_append]
  · rfl

/-- Witness for C7: a batch whose middle record has no identity field
behaves exactly like the batch without it. -/
theorem C7_bulk_update_skip_and_atomic_witness :
    BaseDAO.bulk_update ⟨[⟨0, 0, 0, [("username", .vstr "a")]⟩], 1, 7⟩ false
        ([[("id", .vint 0), ("username", .vstr "b")]] ++
          [("username", .vstr "zzz")] :: []) =
      BaseDAO.bulk_update ⟨[⟨0, 0, 0, [("username", .vstr "a")]⟩], 1, 7⟩ false
        ([[("id", .vint 0), ("username", .vstr "b")]] ++ []) ∧
    BaseDAO.bulk_update ⟨[⟨0, 0, 0, [("username", .vstr "a")]⟩], 1, 7⟩ true
        ([[("id", .vint 0), ("username", .vstr "b")]] ++
          [("username", .vstr "zzz")] :: []) =
      (.error .storageError, ⟨[⟨0, 0, 0, [("username", .vstr "a")]⟩], 1, 7⟩) ∧
    ∃ n db1, BaseDAO.bulk_update ⟨[⟨0, 0, 0, [("username", .vstr "a")]⟩], 1, 7⟩ false
        ([[("id", .vint 0), ("username", .vstr "b")]] ++
          [("username", .vstr "zzz")] :: []) = (.ok n, db1) :=
  C7_bulk_update_skip_and_atomic _ false _ _ _ (by decide)

/-- C2 at the failing input (a `code_bug` evaluation): two `upsert`
calls with the same `telegram_id` unique-field value and differing
`username`.  `find_one_or_none` opens and closes its own session
(`bot/dao/base.py:35`), so the instance `upsert` mutates at
`bot/dao/base.py:201` is detached from the session whose commit follows:
the store keeps the FIRST call's `username` and only the returned
in-memory instance shows the second call's value. -/
theorem C2_upsert_second_call_lost :
    ∃ row1 db1 row2 db2,
      BaseDAO.upsert ⟨[], 0, 0⟩ false ["telegram_id"]
        [("telegram_id", .vint 1), ("username", .vstr "a")] = (.ok row1, db1) ∧
      BaseDAO.upsert db1 false ["telegram_id"]
        [("telegram_id", .vint 1), ("username", .vstr "b")] = (.ok row2, db2) ∧
      (db2.rows.filter (matchesFilter [("telegram_id", .vint 1)])).length = 1 ∧
      (∀ r ∈ db2.rows, r.col "username" = .vstr "a") ∧
      row2.col "username" = .vstr "b" ∧
      db2 = db1 := by
  refine ⟨⟨0, 0, 0, [("telegram_id", .vint 1), ("username", .vstr "a")]⟩,
          ⟨[⟨0, 0, 0, [("telegram_id", .vint 1), ("username", .vstr "a")]⟩], 1, 0⟩,
          ⟨0, 0, 0, [("telegram_id", .vint 1), ("username", .vstr "b")]⟩,
          ⟨[⟨0, 0, 0, [("telegram_id", .vint 1), ("username", .vstr "a")]⟩], 1, 0⟩,
          rfl, rfl, rfl, by decide, rfl, rfl⟩

/-- C10: when no listed unique field occurs among the keys of `values`,
`upsert`'s lookup filter is empty (absent unique fields are silently
dropped, not rejected), the existence check runs unconstrained over the
whole table, and the entity that unconstrained lookup yields is treated
as the match: every field of `values` is overwritten onto the instance
`upsert` returns. -/
theorem C10_upsert_unconstrained_overwrite (db : DB) (unique_fields : List String)
    (values : List (String × Val)) (r : Row)
    (habs : ∀ f ∈ unique_fields, ∀ p ∈ values, p.1 ≠ f)
    (hrows : db.rows = [r])
    (hnd : (values.map Prod.fst).Nodup)
    (hsrv : ∀ p ∈ values, isServerCol p.1 = false) :
    BaseDAO.upsertFilterDict unique_fields values = [] ∧
    ∃ row, BaseDAO.upsert db false unique_fields values = (.ok row, db) ∧
      row = values.foldl (fun acc p => acc.setCol p.1 p.2) r ∧
      ∀ p ∈ values, row.col p.1 = p.2 := by
  have hfind : ∀ f ∈ unique_fields, values.find? (fun p => p.1 = f) = none := by
    intro f hf
    exact List.find?_eq_none.mpr (fun p hp => by simpa using habs f hf p hp)
  have hfd : BaseDAO.upsertFilterDict unique_fields values = [] := by
    unfold BaseDAO.upsertFilterDict
    rw [List.filterMap_eq_nil_iff]
    intro f hf
    rw [hfind f hf]
    rfl
  have hmatch : db.rows.filter (matchesFilter []) = [r] := by
    rw [hrows]
    simp [matchesFilter]
  refine ⟨hfd, _, ?_, rfl, ?_⟩
  · unfold BaseDAO.upsert
    rw [hfd]
    unfold BaseDAO.find_one_or_none
    simp only [if_neg Bool.false_ne_true]
    rw [hmatch]
    rfl
  · intro p hp
    exact foldl_setCol_mem values r p.1 p.2 hnd (hsrv p hp) (by simpa using hp)

/-- Witness for C10: a single-row table, `unique_fields = ["email"]`,
and `values` that do not mention `email`. -/
theorem C10_upsert_unconstrained_overwrite_witness :
    BaseDAO.upsertFilterDict ["email"] [("username", .vstr "b")] = [] ∧
    ∃ row, BaseDAO.upsert ⟨[⟨0, 0, 0, [("username", .vstr "a")]⟩], 1, 3⟩ false
        ["email"] [("username", .vstr "b")] =
        (.ok row, ⟨[⟨0, 0, 0, [("username", .vstr "a")]⟩], 1, 3⟩) ∧
      row = [(("username" : String), Val.vstr "b")].foldl
        (fun acc p => acc.setCol p.1 p.2) ⟨0, 0, 0, [("username", .vstr "a")]⟩ ∧
      ∀ p ∈ [(("username" : String), Val.vstr "b")], row.col p.1 = p.2 :=
  C10_upsert_unconstrained_overwrite _ _ _ _ (by decide) rfl (by decide) (by decide)

/-- The referral mention of `router.py:33` for a parsed, nonzero
referral identity. -/
theorem refMessage_some_ne (ref : Int) (h : ref ≠ 0) :
    refMessage (some ref) =
      " Вы успешно закреплены за пользователем с ID " ++ toString ref := by
  unfold refMessage
  exact if_pos h

/-- C8: a start interaction for an unseen external identity inserts
exactly one user row carrying that identity, the display-name fields and
the parsed referral identity, replying with the registration
confirmation (which spells out the referrer's identity when one was
parsed); a repeat interaction for a stored identity performs no insert
and replies with the greeting only. -/
theorem C8_cmd_start_register_or_greet (db : DB) (message : FromUser)
    (args : Option String) :
    (db.rows.filter (matchesFilter [("telegram_id", .vint message.id)]) = [] →
      ∃ row,
        cmd_start db false false message args =
          ⟨[registrationMsg (get_refer_id_or_none args message.id)],
           { db with rows := db.rows ++ [row], nextId := db.nextId + 1 }, false⟩ ∧
        row.col "telegram_id" = .vint message.id ∧
        row.col "username" = optStrVal message.username ∧
        row.col "first_name" = optStrVal message.first_name ∧
        row.col "last_name" = optStrVal message.last_name ∧
        row.col "referral_id" = optIntVal (get_refer_id_or_none args message.id) ∧
        matchesFilter [("telegram_id", .vint message.id)] row = true ∧
        (∀ ref, get_refer_id_or_none args message.id = some ref → ref ≠ 0 →
          registrationMsg (get_refer_id_or_none args message.id) =
            "🎉 <b>Благодарим за регистрацию! Вы успешно закреплены за пользователем с ID " ++
              toString ref ++ "</b>.")) ∧
    (∀ u, db.rows.filter (matchesFilter [("telegram_id", .vint message.id)]) = [u] →
      cmd_start db false false message args = ⟨[greetingMsg message], db, false⟩) := by
  constructor
  · intro hzero
    set vals : List (String × Val) :=
      [("telegram_id", .vint message.id),
       ("username", optStrVal message.username),
       ("first_name", optStrVal message.first_name),
       ("last_name", optStrVal message.last_name),
       ("referral_id", optIntVal (get_refer_id_or_none args message.id))] with hvals
    have hkeys : vals.map Prod.fst =
        ["telegram_id", "username", "first_name", "last_name", "referral_id"] := rfl
    have hnd : (vals.map Prod.fst).Nodup := by
      rw [hkeys]; decide
    have hbody : cmd_start_body db false false message args =
        .ok ([registrationMsg (get_refer_id_or_none args message.id)],
             { db with rows := db.rows ++ [db.mkRow vals], nextId := db.nextId + 1 }) := by
      unfold cmd_start_body BaseDAO.find_one_or_none BaseDAO.add
      simp only [if_neg Bool.false_ne_true]
      rw [hzero]
      rfl
    have htg : (db.mkRow vals).col "telegram_id" = .vint message.id :=
      mkRow_col_of_mem db vals "telegram_id" (.vint message.id) hnd (by decide)
        (List.mem_cons_self _ _)
    refine ⟨db.mkRow vals, ?_, htg, ?_, ?_, ?_, ?_, ?_, ?_⟩
    · unfold cmd_start
      rw [hbody]
    · exact mkRow_col_of_mem db vals "username" _ hnd (by decide) (by simp [hvals])
    · exact mkRow_col_of_mem db vals "first_name" _ hnd (by decide) (by simp [hvals])
    · exact mkRow_col_of_mem db vals "last_name" _ hnd (by decide) (by simp [hvals])
    · exact mkRow_col_of_mem db vals "referral_id" _ hnd (by decide) (by simp [hvals])
    · simp [matchesFilter, htg]
    · intro ref href hne
      rw [href]
      unfold registrationMsg
      rw [refMessage_some_ne ref hne, ← String.append_assoc]
      rfl
  · intro u hone
    unfold cmd_start cmd_start_body BaseDAO.find_one_or_none
    simp only [if_neg Bool.false_ne_true]
    rw [hone]
    rfl

/-- Witness for C8: identity 42 with argument text "7" registers with
referral identity 7 and a reply naming 7; the repeat interaction greets
without inserting. -/
theorem C8_cmd_start_register_or_greet_witness :
    (∃ row,
        cmd_start ⟨[], 0, 0⟩ false false ⟨42, some "u", some "f", some "l", "Full Name"⟩
            (some "7") =
          ⟨[registrationMsg (get_refer_id_or_none (some "7") 42)],
           { rows := [] ++ [row], nextId := 0 + 1, clock := 0 }, false⟩ ∧
        row.col "telegram_id" = .vint 42 ∧
        row.col "username" = optStrVal (some "u") ∧
        row.col "first_name" = optStrVal (some "f") ∧
        row.col "last_name" = optStrVal (some "l") ∧
        row.col "referral_id" = optIntVal (get_refer_id_or_none (some "7") 42) ∧
        matchesFilter [("telegram_id", .vint 42)] row = true ∧
        (∀ ref, get_refer_id_or_none (some "7") 42 = some ref → ref ≠ 0 →
          registrationMsg (get_refer_id_or_none (some "7") 42) =
            "🎉 <b>Благодарим за регистрацию! Вы успешно закреплены за пользователем с ID " ++
              toString ref ++ "</b>.")) ∧
    (cmd_start ⟨[⟨0, 0, 0, [("telegram_id", .vint 42)]⟩], 1, 0⟩ false false
        ⟨42, some "u", some "f", some "l", "Full Name"⟩ (some "7") =
      ⟨[greetingMsg ⟨42, some "u", some "f", some "l", "Full Name"⟩],
       ⟨[⟨0, 0, 0, [("telegram_id", .vint 42)]⟩], 1, 0⟩, false⟩) :=
  ⟨(C8_cmd_start_register_or_greet ⟨[], 0, 0⟩ _ _).1 (by decide),
   (C8_cmd_start_register_or_greet ⟨[⟨0, 0, 0, [("telegram_id", .vint 42)]⟩], 1, 0⟩ _ _).2
     ⟨0, 0, 0, [("telegram_id", .vint 42)]⟩ (by decide)⟩

/-- C9: every exception raised during the lookup or the insert of the
start handler is caught — the handler logs a diagnostic, replies with
the generic apology, leaves the store as it was, and never propagates
the error (its result type is total, and every error branch of the body
maps to the apology outcome). -/
theorem C9_cmd_start_catches_errors (db : DB) (failFind failAdd : Bool)
    (message : FromUser) (args : Option String) :
    (∀ e, cmd_start_body db failFind failAdd message args = .error e →
      cmd_start db failFind failAdd message args = ⟨[apologyMsg], db, true⟩) ∧
    (failFind = true →
      cmd_start db failFind failAdd message args = ⟨[apologyMsg], db, true⟩) ∧
    (failAdd = true →
      db.rows.filter (matchesFilter [("telegram_id", .vint message.id)]) = [] →
      cmd_start db false failAdd message args = ⟨[apologyMsg], db, true⟩) ∧
    ((cmd_start db failFind failAdd message args).errorLogged = true →
      (cmd_start db failFind failAdd message args).replies = [apologyMsg]) := by
  refine ⟨?_, ?_, ?_, ?_⟩
  · intro e he
    unfold cmd_start
    rw [he]
  · intro hf
    subst hf
    rfl
  · intro ha hzero
    subst ha
    have hbody : cmd_start_body db false true message args = .error .storageError := by
      unfold cmd_start_body BaseDAO.find_one_or_none BaseDAO.add
      simp only [if_neg Bool.false_ne_true]
      rw [hzero]
      rfl
    unfold cmd_start
    rw [hbody]
  · intro hlog
    unfold cmd_start at hlog ⊢
    rcases hb : cmd_start_body db failFind failAdd message args with e | ⟨rs, db1⟩
    · rfl
    · rw [hb] at hlog
      simp at hlog

/-- Witness for C9: a lookup fault and an insert fault both end in the
apology with the store untouched. -/
theorem C9_cmd_start_catches_errors_witness :
    (cmd_start ⟨[], 0, 0⟩ true false ⟨42, none, none, none, "N"⟩ none =
      ⟨[apologyMsg], ⟨[], 0, 0⟩, true⟩) ∧
    (cmd_start ⟨[], 0, 0⟩ false true ⟨42, none, none, none, "N"⟩ none =
      ⟨[apologyMsg], ⟨[], 0, 0⟩, true⟩) :=
  ⟨(C9_cmd_start_catches_errors ⟨[], 0, 0⟩ true false _ none).2.1 rfl,
   (C9_cmd_start_catches_errors ⟨[], 0, 0⟩ false true _ none).2.2.1 rfl (by decide)⟩
